import Mathlib

/-!
# Verification of the joke-battles backend

Shallow embedding of the three source files of the repository
(`backend/database.py`, `backend/llm_clients.py`, `backend/main.py`)
and proofs about the vote ledger and the joke aggregator.

The ledger state is the list of rows of the single `votes` table, in
insertion order.  Machine-level effects (SQL, HTTP) are modelled by
explicit outcome values: each `try/except` block of the Python source
becomes a `match` on the outcome, and each degraded return value of an
`except` branch appears as the corresponding branch of the Lean
definition.
-/

/-- A row of the `votes` table (`database.py`, `init_db`):
`model_name`, `session_id`, `timestamp`.  The surrogate auto-increment
`id` column is determined by the position of the row in the list and is
never read by the code, so it is not stored. -/
structure Vote where
  model_name : String
  session_id : String
  timestamp : Nat
deriving DecidableEq, Repr

/-- The fixed enumerated provider set, in the order used both by the
`scores` dictionary of `Database.get_scores` and by the `models` list of
`generate_jokes` in `main.py`. -/
def models : List String := ["OpenAI", "Anthropic", "Gemini", "Llama"]

/-- Python's `pat in s` substring test on strings (`record_vote` uses
`"duplicate key" in str(e).lower()`). -/
def strContains (s pat : String) : Bool :=
  s.toList.tails.any (fun t => pat.toList.isPrefixOf t)

/-- Python's `str.lower()` for the ASCII error messages involved. -/
def lowerStr (s : String) : String :=
  ⟨s.toList.map Char.toLower⟩

/-- The test `record_vote` applies to a caught exception's message to
decide whether it is a uniqueness-constraint violation
(`database.py` line 100). -/
def isDuplicateMessage (e : String) : Bool :=
  strContains (lowerStr e) "duplicate key" || strContains (lowerStr e) "unique constraint"

/-- Outcome of the storage layer's `INSERT INTO votes ...` as observed
by `record_vote`: success, a uniqueness-constraint violation carrying
the engine's message, or any other storage exception carrying its
message. -/
inductive InsertOutcome where
  | success
  | uniqueViolation (msg : String)
  | otherError (msg : String)
deriving DecidableEq, Repr

/-- The error `record_vote` lets escape: `ValueError("Session has
already voted")` (the distinguished duplicate-vote error), or the
re-raised original storage exception. -/
inductive VoteError where
  | duplicate
  | storage (msg : String)
deriving DecidableEq, Repr

/-- The `except` block of `Database.record_vote` (lines 99-105): any
caught exception is classified purely by its message text — a message
containing `"duplicate key"` or `"unique constraint"` (lowercased)
becomes the duplicate-vote error, everything else is re-raised. -/
def classifyInsertError (m : String) : VoteError :=
  if isDuplicateMessage m then VoteError.duplicate else VoteError.storage m

/-- Model of `Database.record_vote` (lines 84-105): attempts the insertion; on
success returns normally, on any storage exception classifies the
message.  The code cannot observe which kind of failure occurred other
than through the message. -/
def record_vote (o : InsertOutcome) : Except VoteError Unit :=
  match o with
  | InsertOutcome.success => Except.ok ()
  | InsertOutcome.uniqueViolation m => Except.error (classifyInsertError m)
  | InsertOutcome.otherError m => Except.error (classifyInsertError m)

/-- The message SQLite emits when the `UNIQUE(session_id)` constraint
of the `votes` table (`init_db`, line 47) rejects an insert. -/
def uniqueViolationMsg : String := "UNIQUE constraint failed: votes.session_id"

/-- The message PostgreSQL emits when the `session_id UNIQUE`
constraint (`init_db`, line 56) rejects an insert. -/
def pgUniqueViolationMsg : String :=
  "duplicate key value violates unique constraint \"votes_session_id_key\""

/-- The storage engine executing `INSERT INTO votes` against the table
created by `init_db`: the `UNIQUE(session_id)` constraint rejects a row
whose `session_id` is already present, leaving the table unchanged;
otherwise the row is appended.  This is the storage-layer constraint,
independent of any application-side check. -/
def insertVote (db : List Vote) (v : Vote) : List Vote × InsertOutcome :=
  if db.any (fun w => w.session_id == v.session_id) then
    (db, InsertOutcome.uniqueViolation uniqueViolationMsg)
  else
    (db ++ [v], InsertOutcome.success)

/-- Model of `Database.record_vote` acting on the ledger state: runs the insert
against the storage engine and classifies its outcome, returning the
new state and the call's result. -/
def record_vote_st (db : List Vote) (model_name session_id : String) (t : Nat) :
    List Vote × Except VoteError Unit :=
  let r := insertVote db ⟨model_name, session_id, t⟩
  (r.1, record_vote r.2)

/-- Model of `Database.has_voted` (lines 68-82): `SELECT COUNT(*) ... WHERE
session_id = s`, returns `count > 0`; the `except` branch (storage
failure, `storageFail = true`) returns `False`. -/
def has_voted (db : List Vote) (session_id : String) (storageFail : Bool) : Bool :=
  if storageFail then false
  else decide (0 < (db.filter (fun v => v.session_id == session_id)).length)

/-- Model of `Database.get_total_votes` (lines 142-152): `SELECT COUNT(*) FROM
votes`; the `except` branch returns `0`. -/
def get_total_votes (db : List Vote) (storageFail : Bool) : Nat :=
  if storageFail then 0 else db.length

/-- The grouped query of `get_scores` (lines 112-119): `SELECT
model_name, COUNT(*) FROM votes GROUP BY model_name` — one pair per
distinct `model_name` occurring in the table, with its row count.  The
query's `ORDER BY vote_count DESC` only permutes these pairs; since the
keys are pairwise distinct, the dictionary overlay below is insensitive
to that order, so the pairs are kept in first-occurrence order. -/
def groupCounts (db : List Vote) : List (String × Nat) :=
  (db.map Vote.model_name).dedup.map
    (fun m => (m, (db.filter (fun v => v.model_name == m)).length))

/-- The update loop of `get_scores` (lines 131-134): `for model_name,
vote_count in results: if model_name in scores: scores[model_name] =
vote_count`.  A Python dict update keeps the key's position, so the
association list keeps its key order. -/
def overlay (scores results : List (String × Nat)) : List (String × Nat) :=
  results.foldl
    (fun acc p =>
      if (acc.map Prod.fst).contains p.1 then
        acc.map (fun q => if q.1 = p.1 then (q.1, p.2) else q)
      else acc)
    scores

/-- Model of `Database.get_scores` (lines 107-140): initializes the four known
models to 0, overlays the grouped counts for known keys only; the
`except` branch returns the all-zero dictionary. -/
def get_scores (db : List Vote) (storageFail : Bool) : List (String × Nat) :=
  if storageFail then
    [("OpenAI", 0), ("Anthropic", 0), ("Gemini", 0), ("Llama", 0)]
  else
    overlay [("OpenAI", 0), ("Anthropic", 0), ("Gemini", 0), ("Llama", 0)] (groupCounts db)

/-- Number of rows of the ledger whose `model_name` is `m` (the count
the grouped query produces for `m` when `m` occurs, and `0`
otherwise). -/
def countVotesFor (db : List Vote) (m : String) : Nat :=
  (db.filter (fun v => v.model_name == m)).length

/-- Value at key `m` after folding an association list left-to-right
with last-write-wins semantics, starting from default `d`. -/
def lastCount (res : List (String × Nat)) (m : String) (d : Nat) : Nat :=
  res.foldl (fun acc p => if p.1 = m then p.2 else acc) d

/-!
## The LLM clients (`llm_clients.py`)

Each `generate_*_joke` coroutine is a function of the relevant
configuration field of `LLMClients` and of the outcome of its single
outbound HTTP request.  The request outcome distinguishes exactly what
the Python code can observe: an HTTP response with a status code and an
optional successfully-extracted content field (`none` models a
malformed body — the field access raises inside the `try`), an
`aiohttp.ClientError`, or any other exception (timeout, connector
failure, ...).
-/

/-- Observable outcome of one outbound provider request. -/
inductive HttpOutcome where
  | response (status : Nat) (body : Option String)
  | clientError (msg : String)
  | otherError (msg : String)
deriving DecidableEq, Repr

/-- Python truthiness test `if not self.<x>_api_key:` on an environment
value: `None` (variable absent) and the empty string are falsy. -/
def keyFalsy : Option String → Bool
  | none => true
  | some s => s == ""

/-- Python's `str.strip()`: whitespace removed from both ends
(`result[...].strip()` on the extracted content field). -/
def stripStr (s : String) : String :=
  ⟨((s.toList.dropWhile Char.isWhitespace).reverse.dropWhile Char.isWhitespace).reverse⟩

/-- Result of one provider call: the returned string and whether the
function reached its outbound network request (the `aiohttp` session
post). -/
structure CallResult where
  content : String
  networkCalled : Bool
deriving DecidableEq, Repr

/-- Model of `LLMClients.generate_openai_joke` (lines 31-74): missing/falsy key
short-circuits before any I/O; status 200 with a well-formed body
returns the stripped content; non-200 returns the status fallback; any
exception inside the `try` (network error or malformed body) returns
the exception fallback. -/
def generate_openai_joke (openai_api_key : Option String) (context : String)
    (net : HttpOutcome) : CallResult :=
  if keyFalsy openai_api_key then ⟨"OpenAI API key not configured", false⟩
  else
    match net with
    | HttpOutcome.response status body =>
      if status == 200 then
        match body with
        | some content => ⟨stripStr content, true⟩
        | none => ⟨"OpenAI took a comedy break!", true⟩
      else ⟨"OpenAI is having trouble thinking of jokes right now!", true⟩
    | HttpOutcome.clientError _ => ⟨"OpenAI took a comedy break!", true⟩
    | HttpOutcome.otherError _ => ⟨"OpenAI took a comedy break!", true⟩

/-- Model of `LLMClients.generate_anthropic_joke` (lines 76-115), same shape as
the OpenAI client with Anthropic's strings. -/
def generate_anthropic_joke (anthropic_api_key : Option String) (context : String)
    (net : HttpOutcome) : CallResult :=
  if keyFalsy anthropic_api_key then ⟨"Anthropic API key not configured", false⟩
  else
    match net with
    | HttpOutcome.response status body =>
      if status == 200 then
        match body with
        | some content => ⟨stripStr content, true⟩
        | none => ⟨"Claude needs more joke practice!", true⟩
      else ⟨"Claude is busy perfecting its comedy routine!", true⟩
    | HttpOutcome.clientError _ => ⟨"Claude needs more joke practice!", true⟩
    | HttpOutcome.otherError _ => ⟨"Claude needs more joke practice!", true⟩

/-- Model of `LLMClients.generate_gemini_joke` (lines 117-149), same shape with
Google's strings. -/
def generate_gemini_joke (google_api_key : Option String) (context : String)
    (net : HttpOutcome) : CallResult :=
  if keyFalsy google_api_key then ⟨"Google API key not configured", false⟩
  else
    match net with
    | HttpOutcome.response status body =>
      if status == 200 then
        match body with
        | some content => ⟨stripStr content, true⟩
        | none => ⟨"Gemini got lost in the comedy cosmos!", true⟩
      else ⟨"Gemini is stargazing instead of joke-making!", true⟩
    | HttpOutcome.clientError _ => ⟨"Gemini got lost in the comedy cosmos!", true⟩
    | HttpOutcome.otherError _ => ⟨"Gemini got lost in the comedy cosmos!", true⟩

/-- Model of `LLMClients.generate_llama_joke` (lines 151-183): no credential
check at all — `ollama_base_url` has a default, so the request is
always attempted.  `aiohttp.ClientError` has its own fallback; any
other exception (timeout, malformed body) gets the generic one. -/
def generate_llama_joke (ollama_base_url : String) (context : String)
    (net : HttpOutcome) : CallResult :=
  match net with
  | HttpOutcome.response status body =>
    if status == 200 then
      match body with
      | some content => ⟨stripStr content, true⟩
      | none => ⟨"Llama is taking a humor siesta!", true⟩
    else ⟨"Llama is busy grazing on comedy grass!", true⟩
  | HttpOutcome.clientError _ => ⟨"Llama wandered off from the comedy farm!", true⟩
  | HttpOutcome.otherError _ => ⟨"Llama is taking a humor siesta!", true⟩

/-- A request outcome on which the provider function cannot return
genuine content: non-200 status, 200 with a malformed body, or an
exception. -/
def isFailure : HttpOutcome → Bool
  | HttpOutcome.response 200 (some _) => false
  | _ => true

/-!
## The aggregator (`main.py`, `generate_jokes`, lines 76-123)

Each of the four provider coroutines either returns a string or raises;
`safe_generate` wraps one branch.  `asyncio.gather` preserves task
order, so the joined list is in the fixed task order regardless of
completion order; the model is a pure join over the four branch
outcomes.
-/

/-- What one awaited provider branch did: returned a string, or raised
an exception. -/
inductive ProviderOutcome where
  | ok (result : String)
  | exn (msg : String)
deriving DecidableEq, Repr

/-- Python's `str.startswith(pat)` (used at `main.py` line 88). -/
def startswith (s pat : String) : Bool :=
  pat.toList.isPrefixOf s.toList

/-- Model of `safe_generate` (lines 85-96): a returned string is passed through
unchanged (the `startswith("Sorry,")` test only selects the log
message); an exception is replaced by the "Sorry, ..." fallback. -/
def safe_generate (o : ProviderOutcome) (model_name : String) : String :=
  match o with
  | ProviderOutcome.ok result => result
  | ProviderOutcome.exn _ =>
    "Sorry, " ++ model_name ++ " is taking a joke break right now! 😅"

/-- One element of the endpoint's response (`JokeResponse` in
`main.py`). -/
structure JokeResponse where
  id : Nat
  content : String
  model : String
deriving DecidableEq, Repr

/-- Model of `generate_jokes` (lines 76-123): the four branches are wrapped in
`safe_generate`, gathered in task order, zipped with the fixed model
list and enumerated into `JokeResponse` values. -/
def generate_jokes (oOpenAI oAnthropic oGemini oLlama : ProviderOutcome) :
    List JokeResponse :=
  let jokes := [safe_generate oOpenAI "OpenAI", safe_generate oAnthropic "Anthropic",
                safe_generate oGemini "Gemini", safe_generate oLlama "Llama"]
  ((jokes.zip models).enum).map (fun p => ⟨p.1, p.2.1, p.2.2⟩)

/-- The per-session uniqueness invariant of the `votes` table: no
`session_id` occurs on two rows. -/
def SessionsUnique (db : List Vote) : Prop :=
  (db.map Vote.session_id).Nodup

/-- One ledger operation: the read-only operations (`has_voted`,
`get_scores`, `get_total_votes`) leave the table unchanged;
`record_vote` moves to the post-state of `record_vote_st` — with no
application-side `has_voted` pre-check, so that preservation of the
invariant can rely on nothing but the storage-layer constraint (the
`submit_vote` handler's advisory pre-check can go stale under a race
and is deliberately absent from the model). -/
inductive Step : List Vote → List Vote → Prop where
  | read (db : List Vote) : Step db db
  | record (db : List Vote) (m s : String) (t : Nat) :
      Step db (record_vote_st db m s t).1

/-- Ledger states reachable from the empty table by ledger
operations. -/
inductive Reachable : List Vote → Prop where
  | empty : Reachable []
  | step {db db' : List Vote} : Reachable db → Step db db' → Reachable db'

/-!
## Characterization of `get_scores`
-/

/-- Unfolding one step of the overlay loop. -/
theorem overlay_cons (scores : List (String × Nat)) (p : String × Nat)
    (res : List (String × Nat)) :
    overlay scores (p :: res) =
      overlay
        (if (scores.map Prod.fst).contains p.1 then
          scores.map (fun q => if q.1 = p.1 then (q.1, p.2) else q)
        else scores)
        res := rfl

/-- Unfolding one step of the last-write-wins fold. -/
theorem lastCount_cons (p : String × Nat) (res : List (String × Nat)) (m : String) (d : Nat) :
    lastCount (p :: res) m d = lastCount res m (if p.1 = m then p.2 else d) := rfl

/-- Overlaying any association list onto the four-model zero dictionary
yields the four models in order, each with its last written count (or
the initial value when the key never occurs). -/
theorem overlay_four (res : List (String × Nat)) (o a g l : Nat) :
    overlay [("OpenAI", o), ("Anthropic", a), ("Gemini", g), ("Llama", l)] res =
      [("OpenAI", lastCount res "OpenAI" o), ("Anthropic", lastCount res "Anthropic" a),
       ("Gemini", lastCount res "Gemini" g), ("Llama", lastCount res "Llama" l)] := by
  induction res generalizing o a g l with
  | nil => simp [overlay, lastCount]
  | cons p res ih =>
    rcases p with ⟨k, c⟩
    rw [overlay_cons, lastCount_cons, lastCount_cons, lastCount_cons, lastCount_cons]
    by_cases h1 : k = "OpenAI"
    · subst h1
      simpa using ih c a g l
    · by_cases h2 : k = "Anthropic"
      · subst h2
        simpa using ih o c g l
      · by_cases h3 : k = "Gemini"
        · subst h3
          simpa using ih o a c l
        · by_cases h4 : k = "Llama"
          · subst h4
            simpa using ih o a g c
          · have hcont :
                ((([("OpenAI", o), ("Anthropic", a), ("Gemini", g), ("Llama", l)] :
                  List (String × Nat)).map Prod.fst).contains k) = false := by
              simp [h1, h2, h3, h4]
            simp only [hcont, Bool.false_eq_true, if_false]
            rw [if_neg h1, if_neg h2, if_neg h3, if_neg h4]
            exact ih o a g l

/-- Last-write-wins lookup over a keyed map of a function. -/
theorem lastCount_map (ms : List String) (f : String → Nat) (x : String) (d : Nat) :
    lastCount (ms.map (fun m => (m, f m))) x d = if x ∈ ms then f x else d := by
  induction ms generalizing d with
  | nil => simp [lastCount]
  | cons m ms ih =>
    simp only [List.map_cons]
    rw [lastCount_cons, ih]
    by_cases hm : x ∈ ms
    · simp [hm]
    · by_cases he : m = x
      · subst he
        simp [hm]
      · simp [hm, he, Ne.symm he]

/-- The grouped query delivers, for every model name, exactly the count
of matching ledger rows (0 when absent). -/
theorem lastCount_groupCounts (db : List Vote) (m : String) :
    lastCount (groupCounts db) m 0 = countVotesFor db m := by
  unfold groupCounts
  rw [lastCount_map]
  by_cases h : m ∈ (db.map Vote.model_name).dedup
  · simp [h, countVotesFor]
  · rw [if_neg h]
    rw [List.mem_dedup] at h
    symm
    simp only [countVotesFor, List.length_eq_zero, List.filter_eq_nil_iff]
    intro v hv
    simp only [beq_iff_eq]
    intro he
    exact h (List.mem_map.mpr ⟨v, hv, he⟩)

/-- On the success path, `get_scores` returns exactly the four known
models in fixed order, each mapped to its actual row count. -/
theorem get_scores_eq (db : List Vote) :
    get_scores db false =
      [("OpenAI", countVotesFor db "OpenAI"), ("Anthropic", countVotesFor db "Anthropic"),
       ("Gemini", countVotesFor db "Gemini"), ("Llama", countVotesFor db "Llama")] := by
  show overlay _ (groupCounts db) = _
  rw [overlay_four, lastCount_groupCounts, lastCount_groupCounts, lastCount_groupCounts,
    lastCount_groupCounts]

/-- The sum of the values of `get_scores` equals the number of ledger
rows whose `model_name` lies in the enumerated model set. -/
theorem sum_scores (db : List Vote) :
    ((get_scores db false).map Prod.snd).sum =
      (db.filter (fun v => decide (v.model_name ∈ models))).length := by
  rw [get_scores_eq]
  simp only [List.map_cons, List.map_nil, List.sum_cons, List.sum_nil]
  induction db with
  | nil => rfl
  | cons v rest ih =>
    have hc : ∀ m : String, countVotesFor (v :: rest) m =
        (if v.model_name = m then 1 else 0) + countVotesFor rest m := by
      intro m
      by_cases h : v.model_name = m <;>
        simp [countVotesFor, List.filter_cons, h, Nat.add_comm]
    rw [hc, hc, hc, hc]
    simp only [List.filter_cons]
    by_cases hm : v.model_name ∈ models
    · have hd : v.model_name = "OpenAI" ∨ v.model_name = "Anthropic" ∨
          v.model_name = "Gemini" ∨ v.model_name = "Llama" := by
        simpa [models] using hm
      have hdec : decide (v.model_name ∈ models) = true := by simpa using hm
      rw [hdec, if_pos rfl]
      simp only [List.length_cons]
      have hO : ∀ x : String, v.model_name = x → ∀ y : String, x ≠ y →
          (if v.model_name = y then (1 : Nat) else 0) = 0 := by
        intro x hx y hxy
        rw [hx]
        exact if_neg hxy
      rcases hd with h | h | h | h
      · rw [if_pos h, hO _ h _ (by decide), hO _ h _ (by decide), hO _ h _ (by decide)]
        omega
      · rw [hO _ h _ (by decide), if_pos h, hO _ h _ (by decide), hO _ h _ (by decide)]
        omega
      · rw [hO _ h _ (by decide), hO _ h _ (by decide), if_pos h, hO _ h _ (by decide)]
        omega
      · rw [hO _ h _ (by decide), hO _ h _ (by decide), hO _ h _ (by decide), if_pos h]
        omega
    · have h1 : ¬ v.model_name = "OpenAI" := fun e => hm (by simp [models, e])
      have h2 : ¬ v.model_name = "Anthropic" := fun e => hm (by simp [models, e])
      have h3 : ¬ v.model_name = "Gemini" := fun e => hm (by simp [models, e])
      have h4 : ¬ v.model_name = "Llama" := fun e => hm (by simp [models, e])
      have hdec : decide (v.model_name ∈ models) = false := by simpa using hm
      rw [hdec, if_neg Bool.false_ne_true, if_neg h1, if_neg h2, if_neg h3, if_neg h4]
      omega

/-!
## Claims
-/

/-- C1 (counterexample): on a ledger holding one vote whose
`model_name` lies outside the enumerated set, `get_total_votes` counts
the row but `get_scores` displays it nowhere, so the claimed equality
fails: the total is 1 while the score values sum to 0. -/
theorem C1_counterexample :
    ¬ (get_total_votes [⟨"Mistral", "s1", 0⟩] false =
        ((get_scores [⟨"Mistral", "s1", 0⟩] false).map Prod.snd).sum) := by
  decide

/-- C1 (amended): `get_total_votes()` equals the sum of the values of
`get_scores()` on every ledger state all of whose votes carry a
`model_name` in the enumerated set {OpenAI, Anthropic, Gemini, Llama};
a vote outside the set is counted by `get_total_votes` but by none of
the `get_scores` values, so the equality can fail on such states
(`C1_counterexample`). -/
theorem C1_total_eq_sum_scores (db : List Vote)
    (h : ∀ v ∈ db, v.model_name ∈ models) :
    get_total_votes db false = ((get_scores db false).map Prod.snd).sum := by
  rw [sum_scores]
  show db.length = _
  have hf : db.filter (fun v => decide (v.model_name ∈ models)) = db :=
    List.filter_eq_self.mpr (fun v hv => by simpa using h v hv)
  rw [hf]

/-- Witness for `C1_total_eq_sum_scores` at a concrete one-vote
ledger. -/
theorem C1_witness :
    (∀ v ∈ ([⟨"OpenAI", "s1", 0⟩] : List Vote), v.model_name ∈ models) ∧
      get_total_votes [⟨"OpenAI", "s1", 0⟩] false =
        ((get_scores [⟨"OpenAI", "s1", 0⟩] false).map Prod.snd).sum :=
  ⟨by decide, C1_total_eq_sum_scores _ (by decide)⟩

/-- C2: for any four branch outcomes (success or raised exception, in
any combination), `generate_jokes` returns exactly 4 results, in the
fixed provider order OpenAI, Anthropic, Gemini, Llama, with ids 0-3 and
every position filled by the corresponding `safe_generate` string; the
function is total, so no exception reaches the caller. -/
theorem C2_generate_jokes_shape (oO oA oG oL : ProviderOutcome) :
    (generate_jokes oO oA oG oL).length = 4 ∧
      (generate_jokes oO oA oG oL).map JokeResponse.model = models ∧
      (generate_jokes oO oA oG oL).map JokeResponse.id = [0, 1, 2, 3] ∧
      generate_jokes oO oA oG oL =
        [⟨0, safe_generate oO "OpenAI", "OpenAI"⟩,
         ⟨1, safe_generate oA "Anthropic", "Anthropic"⟩,
         ⟨2, safe_generate oG "Gemini", "Gemini"⟩,
         ⟨3, safe_generate oL "Llama", "Llama"⟩] :=
  ⟨rfl, rfl, rfl, rfl⟩

/-- C7: `get_scores` always returns exactly the four enumerated
providers as keys in fixed order, each zero-initialized and overlaid
with its actual vote count; the empty ledger yields the all-zero
four-entry mapping (not an empty one), and a storage failure degrades
to the all-zero mapping instead of raising. -/
theorem C7_scores_shape (db : List Vote) :
    (get_scores db false).map Prod.fst = models ∧
      get_scores db false = models.map (fun m => (m, countVotesFor db m)) ∧
      get_scores [] false = [("OpenAI", 0), ("Anthropic", 0), ("Gemini", 0), ("Llama", 0)] ∧
      get_scores db true = [("OpenAI", 0), ("Anthropic", 0), ("Gemini", 0), ("Llama", 0)] := by
  refine ⟨?_, ?_, rfl, rfl⟩
  · rw [get_scores_eq]
    rfl
  · rw [get_scores_eq]
    rfl

/-- C8: when the underlying storage fails, `has_voted` returns `False`
(storage failure treated as "not voted") and `get_total_votes` returns
0; both are total functions, so neither raises to the caller. -/
theorem C8_degraded_reads (db : List Vote) (s : String) :
    has_voted db s true = false ∧ get_total_votes db true = 0 :=
  ⟨rfl, rfl⟩

/-- C3: `record_vote` succeeds exactly when the insertion succeeded (a
vote is never silently dropped); a storage exception whose message
marks a uniqueness-constraint violation — as the messages of both
supported engines do — raises the distinguished duplicate-vote error;
any other storage failure is re-raised to the caller unchanged. -/
theorem C3_record_vote_errors :
    (∀ o : InsertOutcome, record_vote o = Except.ok () ↔ o = InsertOutcome.success) ∧
      (∀ m : String, isDuplicateMessage m = true →
        record_vote (InsertOutcome.uniqueViolation m) = Except.error VoteError.duplicate) ∧
      (∀ m : String, isDuplicateMessage m = false →
        record_vote (InsertOutcome.otherError m) = Except.error (VoteError.storage m)) ∧
      isDuplicateMessage uniqueViolationMsg = true ∧
      isDuplicateMessage pgUniqueViolationMsg = true := by
  refine ⟨?_, ?_, ?_, by decide, by decide⟩
  · intro o
    cases o with
    | success => simp [record_vote]
    | uniqueViolation m => simp [record_vote]
    | otherError m => simp [record_vote]
  · intro m hm
    simp [record_vote, classifyInsertError, hm]
  · intro m hm
    simp [record_vote, classifyInsertError, hm]

/-- Witness for `C3_record_vote_errors`: the SQLite uniqueness message
is classified as a duplicate vote; a connection failure is re-raised as
a storage error. -/
theorem C3_witness :
    (isDuplicateMessage "UNIQUE constraint failed: votes.session_id" = true ∧
      record_vote (InsertOutcome.uniqueViolation "UNIQUE constraint failed: votes.session_id") =
        Except.error VoteError.duplicate) ∧
      (isDuplicateMessage "server closed the connection unexpectedly" = false ∧
        record_vote (InsertOutcome.otherError "server closed the connection unexpectedly") =
          Except.error (VoteError.storage "server closed the connection unexpectedly")) :=
  ⟨⟨by decide, C3_record_vote_errors.2.1 _ (by decide)⟩,
   ⟨by decide, C3_record_vote_errors.2.2.1 _ (by decide)⟩⟩

/-- C6: with the provider's API key absent from the environment, each
keyed provider function returns its fixed "not configured" string and
never reaches its outbound network request, for every context string
and whatever the network would have answered.  (The fourth provider,
Llama, requires no secret: `ollama_base_url` falls back to a default
and `generate_llama_joke` has no credential check, so the claim is
vacuous for it.) -/
theorem C6_missing_key_short_circuit (context : String) (net : HttpOutcome) :
    generate_openai_joke none context net = ⟨"OpenAI API key not configured", false⟩ ∧
      generate_anthropic_joke none context net = ⟨"Anthropic API key not configured", false⟩ ∧
      generate_gemini_joke none context net = ⟨"Google API key not configured", false⟩ :=
  ⟨rfl, rfl, rfl⟩

/-- C4: every ledger state reachable from the empty table by
`has_voted` / `get_scores` / `get_total_votes` / `record_vote`
operations has at most one row per `session_id`.  The `Step.record`
transition performs no application-side existence pre-check: the proof
rests only on the storage engine's `UNIQUE(session_id)` rejection
inside `insertVote`, and covers both the success branch (row appended)
and every failure branch (state unchanged). -/
theorem C4_invariant (db : List Vote) (h : Reachable db) : SessionsUnique db := by
  induction h with
  | empty => simp [SessionsUnique]
  | @step db0 _ _ hs ih =>
    cases hs with
    | read => exact ih
    | record m s t =>
      show SessionsUnique (record_vote_st db0 m s t).1
      unfold record_vote_st insertVote
      by_cases hc : db0.any (fun w => w.session_id == s)
      · simpa [hc] using ih
      · simp only [hc, Bool.false_eq_true, if_false]
        show SessionsUnique (db0 ++ [⟨m, s, t⟩])
        unfold SessionsUnique at ih ⊢
        rw [List.map_append, List.nodup_append]
        refine ⟨ih, List.nodup_singleton _, ?_⟩
        intro x hx hxs
        simp only [List.map_cons, List.map_nil, List.mem_singleton] at hxs
        subst hxs
        simp only [Bool.not_eq_true, List.any_eq_false, beq_iff_eq] at hc
        rcases List.mem_map.mp hx with ⟨w, hw, hwx⟩
        exact hc w hw hwx

/-- Witness for `C4_invariant` at the state reached by one recorded
vote. -/
theorem C4_witness :
    Reachable [⟨"OpenAI", "s1", 0⟩] ∧ SessionsUnique [⟨"OpenAI", "s1", 0⟩] := by
  have he : (record_vote_st [] "OpenAI" "s1" 0).1 = [⟨"OpenAI", "s1", 0⟩] := rfl
  have h1 : Reachable [⟨"OpenAI", "s1", 0⟩] :=
    he ▸ Reachable.step Reachable.empty (Step.record [] "OpenAI" "s1" 0)
  exact ⟨h1, C4_invariant _ h1⟩

/-- C9: from any state with no row for session `s`, two `record_vote`
calls for `s` — in whichever order the storage engine serializes the
two racing inserts, and whatever models they vote for — yield exactly
one success and one duplicate-vote error, and leave exactly one row for
`s`; the outcome is forced by `insertVote`'s constraint enforcement
alone. -/
theorem C9_race_one_success (db : List Vote) (m1 m2 s : String) (t1 t2 : Nat)
    (h : ∀ v ∈ db, v.session_id ≠ s) :
    (record_vote_st db m1 s t1).2 = Except.ok () ∧
      (record_vote_st (record_vote_st db m1 s t1).1 m2 s t2).2 =
        Except.error VoteError.duplicate ∧
      ((record_vote_st (record_vote_st db m1 s t1).1 m2 s t2).1.filter
          (fun v => v.session_id == s)).length = 1 := by
  have hany : (db.any fun w => w.session_id == s) = false := by
    rw [List.any_eq_false]
    intro v hv
    simpa using h v hv
  have h1 : record_vote_st db m1 s t1 = (db ++ [⟨m1, s, t1⟩], Except.ok ()) := by
    simp [record_vote_st, insertVote, hany, record_vote]
  have hany2 : ((db ++ [(⟨m1, s, t1⟩ : Vote)]).any fun w => w.session_id == s) = true := by
    simp [List.any_append]
  have h2 : record_vote_st (db ++ [(⟨m1, s, t1⟩ : Vote)]) m2 s t2 =
      (db ++ [(⟨m1, s, t1⟩ : Vote)], Except.error VoteError.duplicate) := by
    have hdup : classifyInsertError uniqueViolationMsg = VoteError.duplicate := by decide
    simp [record_vote_st, insertVote, hany2, record_vote, hdup]
  have hfil : (db.filter fun v => v.session_id == s) = [] := by
    rw [List.filter_eq_nil_iff]
    intro v hv
    simpa using h v hv
  rw [h1]
  refine ⟨rfl, ?_, ?_⟩
  · rw [h2]
  · rw [h2]
    simp [List.filter_append, hfil]

/-- Witness for `C9_race_one_success`: two racing votes for session
"s2" on the empty ledger. -/
theorem C9_witness :
    (∀ v ∈ ([] : List Vote), v.session_id ≠ "s2") ∧
      ((record_vote_st [] "OpenAI" "s2" 0).2 = Except.ok () ∧
        (record_vote_st (record_vote_st [] "OpenAI" "s2" 0).1 "Gemini" "s2" 1).2 =
          Except.error VoteError.duplicate ∧
        ((record_vote_st (record_vote_st [] "OpenAI" "s2" 0).1 "Gemini" "s2" 1).1.filter
            (fun v => v.session_id == "s2")).length = 1) :=
  ⟨by simp, C9_race_one_success [] "OpenAI" "Gemini" "s2" 0 1 (by simp)⟩

/-!
## Provider fallback strings
-/

/-- On any failing request outcome, the OpenAI client's answer is one
of its three fixed strings. -/
theorem openai_failure_content (context : String) (key : Option String) (net : HttpOutcome)
    (h : isFailure net = true) :
    (generate_openai_joke key context net).content = "OpenAI API key not configured" ∨
      (generate_openai_joke key context net).content =
        "OpenAI is having trouble thinking of jokes right now!" ∨
      (generate_openai_joke key context net).content = "OpenAI took a comedy break!" := by
  rcases net with ⟨status, body⟩ | m | m
  · by_cases hk : keyFalsy key = true
    · simp [generate_openai_joke, hk]
    · by_cases hs : (status == 200) = true
      · cases body with
        | some c =>
          exfalso
          have hst : status = 200 := by simpa using hs
          subst hst
          simp [isFailure] at h
        | none => simp [generate_openai_joke, hk, hs]
      · simp [generate_openai_joke, hk, hs]
  · by_cases hk : keyFalsy key = true <;> simp [generate_openai_joke, hk]
  · by_cases hk : keyFalsy key = true <;> simp [generate_openai_joke, hk]

/-- On any failing request outcome, the Anthropic client's answer is
one of its three fixed strings. -/
theorem anthropic_failure_content (context : String) (key : Option String) (net : HttpOutcome)
    (h : isFailure net = true) :
    (generate_anthropic_joke key context net).content = "Anthropic API key not configured" ∨
      (generate_anthropic_joke key context net).content =
        "Claude is busy perfecting its comedy routine!" ∨
      (generate_anthropic_joke key context net).content = "Claude needs more joke practice!" := by
  rcases net with ⟨status, body⟩ | m | m
  · by_cases hk : keyFalsy key = true
    · simp [generate_anthropic_joke, hk]
    · by_cases hs : (status == 200) = true
      · cases body with
        | some c =>
          exfalso
          have hst : status = 200 := by simpa using hs
          subst hst
          simp [isFailure] at h
        | none => simp [generate_anthropic_joke, hk, hs]
      · simp [generate_anthropic_joke, hk, hs]
  · by_cases hk : keyFalsy key = true <;> simp [generate_anthropic_joke, hk]
  · by_cases hk : keyFalsy key = true <;> simp [generate_anthropic_joke, hk]

/-- On any failing request outcome, the Gemini client's answer is one
of its three fixed strings. -/
theorem gemini_failure_content (context : String) (key : Option String) (net : HttpOutcome)
    (h : isFailure net = true) :
    (generate_gemini_joke key context net).content = "Google API key not configured" ∨
      (generate_gemini_joke key context net).content =
        "Gemini is stargazing instead of joke-making!" ∨
      (generate_gemini_joke key context net).content = "Gemini got lost in the comedy cosmos!" := by
  rcases net with ⟨status, body⟩ | m | m
  · by_cases hk : keyFalsy key = true
    · simp [generate_gemini_joke, hk]
    · by_cases hs : (status == 200) = true
      · cases body with
        | some c =>
          exfalso
          have hst : status = 200 := by simpa using hs
          subst hst
          simp [isFailure] at h
        | none => simp [generate_gemini_joke, hk, hs]
      · simp [generate_gemini_joke, hk, hs]
  · by_cases hk : keyFalsy key = true <;> simp [generate_gemini_joke, hk]
  · by_cases hk : keyFalsy key = true <;> simp [generate_gemini_joke, hk]

/-- On any failing request outcome, the Llama client's answer is one of
its three fixed strings. -/
theorem llama_failure_content (ollama_base_url context : String) (net : HttpOutcome)
    (h : isFailure net = true) :
    (generate_llama_joke ollama_base_url context net).content =
        "Llama is busy grazing on comedy grass!" ∨
      (generate_llama_joke ollama_base_url context net).content =
        "Llama wandered off from the comedy farm!" ∨
      (generate_llama_joke ollama_base_url context net).content =
        "Llama is taking a humor siesta!" := by
  rcases net with ⟨status, body⟩ | m | m
  · by_cases hs : (status == 200) = true
    · cases body with
      | some c =>
        exfalso
        have hst : status = 200 := by simpa using hs
        subst hst
        simp [isFailure] at h
      | none => simp [generate_llama_joke, hs]
    · simp [generate_llama_joke, hs]
  · simp [generate_llama_joke]
  · simp [generate_llama_joke]

/-- C5: for every context, key and failing request outcome (network
error, non-success status code, or malformed/missing response fields),
each of the four provider functions returns one of its fixed,
provider-flavored fallback strings, and that string is non-empty; the
functions are total, so the underlying error never propagates to the
caller. -/
theorem C5_provider_error_containment (context ollama_base_url : String)
    (key : Option String) (net : HttpOutcome) (h : isFailure net = true) :
    (((generate_openai_joke key context net).content = "OpenAI API key not configured" ∨
        (generate_openai_joke key context net).content =
          "OpenAI is having trouble thinking of jokes right now!" ∨
        (generate_openai_joke key context net).content = "OpenAI took a comedy break!") ∧
      (generate_openai_joke key context net).content ≠ "") ∧
    (((generate_anthropic_joke key context net).content = "Anthropic API key not configured" ∨
        (generate_anthropic_joke key context net).content =
          "Claude is busy perfecting its comedy routine!" ∨
        (generate_anthropic_joke key context net).content = "Claude needs more joke practice!") ∧
      (generate_anthropic_joke key context net).content ≠ "") ∧
    (((generate_gemini_joke key context net).content = "Google API key not configured" ∨
        (generate_gemini_joke key context net).content =
          "Gemini is stargazing instead of joke-making!" ∨
        (generate_gemini_joke key context net).content = "Gemini got lost in the comedy cosmos!") ∧
      (generate_gemini_joke key context net).content ≠ "") ∧
    (((generate_llama_joke ollama_base_url context net).content =
          "Llama is busy grazing on comedy grass!" ∨
        (generate_llama_joke ollama_base_url context net).content =
          "Llama wandered off from the comedy farm!" ∨
        (generate_llama_joke ollama_base_url context net).content =
          "Llama is taking a humor siesta!") ∧
      (generate_llama_joke ollama_base_url context net).content ≠ "") := by
  refine ⟨⟨openai_failure_content context key net h, ?_⟩,
    ⟨anthropic_failure_content context key net h, ?_⟩,
    ⟨gemini_failure_content context key net h, ?_⟩,
    ⟨llama_failure_content ollama_base_url context net h, ?_⟩⟩
  · rcases openai_failure_content context key net h with h' | h' | h' <;> rw [h'] <;> decide
  · rcases anthropic_failure_content context key net h with h' | h' | h' <;> rw [h'] <;> decide
  · rcases gemini_failure_content context key net h with h' | h' | h' <;> rw [h'] <;> decide
  · rcases llama_failure_content ollama_base_url context net h with h' | h' | h' <;>
      rw [h'] <;> decide

/-- Witness for `C5_provider_error_containment` at a concrete network
failure. -/
theorem C5_witness :
    isFailure (HttpOutcome.clientError "connection reset by peer") = true ∧
    ((((generate_openai_joke (some "sk-test") "cats"
            (HttpOutcome.clientError "connection reset by peer")).content =
          "OpenAI API key not configured" ∨
        (generate_openai_joke (some "sk-test") "cats"
            (HttpOutcome.clientError "connection reset by peer")).content =
          "OpenAI is having trouble thinking of jokes right now!" ∨
        (generate_openai_joke (some "sk-test") "cats"
            (HttpOutcome.clientError "connection reset by peer")).content =
          "OpenAI took a comedy break!") ∧
      (generate_openai_joke (some "sk-test") "cats"
          (HttpOutcome.clientError "connection reset by peer")).content ≠ "") ∧
    (((generate_anthropic_joke (some "sk-test") "cats"
            (HttpOutcome.clientError "connection reset by peer")).content =
          "Anthropic API key not configured" ∨
        (generate_anthropic_joke (some "sk-test") "cats"
            (HttpOutcome.clientError "connection reset by peer")).content =
          "Claude is busy perfecting its comedy routine!" ∨
        (generate_anthropic_joke (some "sk-test") "cats"
            (HttpOutcome.clientError "connection reset by peer")).content =
          "Claude needs more joke practice!") ∧
      (generate_anthropic_joke (some "sk-test") "cats"
          (HttpOutcome.clientError "connection reset by peer")).content ≠ "") ∧
    (((generate_gemini_joke (some "sk-test") "cats"
            (HttpOutcome.clientError "connection reset by peer")).content =
          "Google API key not configured" ∨
        (generate_gemini_joke (some "sk-test") "cats"
            (HttpOutcome.clientError "connection reset by peer")).content =
          "Gemini is stargazing instead of joke-making!" ∨
        (generate_gemini_joke (some "sk-test") "cats"
            (HttpOutcome.clientError "connection reset by peer")).content =
          "Gemini got lost in the comedy cosmos!") ∧
      (generate_gemini_joke (some "sk-test") "cats"
          (HttpOutcome.clientError "connection reset by peer")).content ≠ "") ∧
    (((generate_llama_joke "http://localhost:11434" "cats"
            (HttpOutcome.clientError "connection reset by peer")).content =
          "Llama is busy grazing on comedy grass!" ∨
        (generate_llama_joke "http://localhost:11434" "cats"
            (HttpOutcome.clientError "connection reset by peer")).content =
          "Llama wandered off from the comedy farm!" ∨
        (generate_llama_joke "http://localhost:11434" "cats"
            (HttpOutcome.clientError "connection reset by peer")).content =
          "Llama is taking a humor siesta!") ∧
      (generate_llama_joke "http://localhost:11434" "cats"
          (HttpOutcome.clientError "connection reset by peer")).content ≠ "")) :=
  ⟨by decide,
    C5_provider_error_containment "cats" "http://localhost:11434" (some "sk-test")
      (HttpOutcome.clientError "connection reset by peer") (by decide)⟩

/-- The exception fallback built by `safe_generate` begins with
"Sorry," for every model name and exception. -/
theorem safe_generate_exn_marked (e mn : String) :
    startswith (safe_generate (ProviderOutcome.exn e) mn) "Sorry," = true := by
  show ("Sorry,".toList.isPrefixOf
    ("Sorry, " ++ mn ++ " is taking a joke break right now! 😅").toList) = true
  rw [ List.isPrefixOf_iff_prefix]
  have hd : ("Sorry, " ++ mn ++ " is taking a joke break right now! 😅").toList
      = "Sorry, ".toList ++ (mn.toList ++ " is taking a joke break right now! 😅".toList) := by
    simp [String.toList, String.data_append, List.append_assoc]
  rw [hd]
  exact List.IsPrefix.trans (by decide) (List.prefix_append _ _)

/-- C10 (counterexample): the 200-OK branch of a provider function
returns whatever content the service produced, so a returned string
can begin with "Sorry,": with a configured key and a well-formed
response whose content field is "Sorry, I only do tragedies.", the
OpenAI function returns a "Sorry,"-prefixed string without any provider
function having raised. -/
theorem C10_counterexample :
    startswith
      (generate_openai_joke (some "sk-test") "cats"
        (HttpOutcome.response 200 (some "Sorry, I only do tragedies."))).content
      "Sorry," = true := by
  decide

/-- C10 (amended): none of the fixed fallback or "not configured"
strings of the four provider functions begins with "Sorry,", so the
aggregation wrapper's `startswith("Sorry,")` check classifies every
provider-level fallback as a success; the wrapper's own
exception-branch string does begin with "Sorry,".  (Genuine 200-OK
content is passed through verbatim and may itself begin with "Sorry," —
`C10_counterexample` — which the claim as stated excludes.) -/
theorem C10_fallbacks_pass_check (context ollama_base_url e mn : String)
    (key : Option String) (net : HttpOutcome) (h : isFailure net = true) :
    startswith (generate_openai_joke key context net).content "Sorry," = false ∧
      startswith (generate_anthropic_joke key context net).content "Sorry," = false ∧
      startswith (generate_gemini_joke key context net).content "Sorry," = false ∧
      startswith (generate_llama_joke ollama_base_url context net).content "Sorry," = false ∧
      startswith (safe_generate (ProviderOutcome.exn e) mn) "Sorry," = true := by
  refine ⟨?_, ?_, ?_, ?_, safe_generate_exn_marked e mn⟩
  · rcases openai_failure_content context key net h with h' | h' | h' <;> rw [h'] <;> decide
  · rcases anthropic_failure_content context key net h with h' | h' | h' <;> rw [h'] <;> decide
  · rcases gemini_failure_content context key net h with h' | h' | h' <;> rw [h'] <;> decide
  · rcases llama_failure_content ollama_base_url context net h with h' | h' | h' <;>
      rw [h'] <;> decide

/-- Witness for `C10_fallbacks_pass_check` at a concrete 503
response. -/
theorem C10_witness :
    isFailure (HttpOutcome.response 503 none) = true ∧
    (startswith (generate_openai_joke (some "g-key") "dogs"
        (HttpOutcome.response 503 none)).content "Sorry," = false ∧
      startswith (generate_anthropic_joke (some "g-key") "dogs"
        (HttpOutcome.response 503 none)).content "Sorry," = false ∧
      startswith (generate_gemini_joke (some "g-key") "dogs"
        (HttpOutcome.response 503 none)).content "Sorry," = false ∧
      startswith (generate_llama_joke "http://localhost:11434" "dogs"
        (HttpOutcome.response 503 none)).content "Sorry," = false ∧
      startswith (safe_generate (ProviderOutcome.exn "boom") "OpenAI") "Sorry," = true) :=
  ⟨by decide,
    C10_fallbacks_pass_check "dogs" "http://localhost:11434" "boom" "OpenAI" (some "g-key")
      (HttpOutcome.response 503 none) (by decide)⟩
